import Mathlib

/-!
Shallow embedding of the taskloop task-marketplace core
(src/src/hooks/use-task-actions.ts, src/src/pages/Chat.tsx, and the
ChatBox component) and proofs about its task lifecycle, verification,
rating, and chat-attachment logic.

The backend (Supabase) tables `tasks`, `task_applications`, `profiles`,
`messages` are modelled as lists of rows; a `.update(...).eq(...)` call
becomes a map over the rows, `.insert(...)` an append/prepend, and
`.select(...).single()` a `find?`.  Backend calls that can fail are given
an explicit environment flag where a claim depends on the failure.
-/

namespace Taskloop

/-- Task status column: the code only ever writes 'active' (DB default on
insert) and 'completed'. -/
inductive TaskStatus where
  | active
  | completed
  deriving DecidableEq

/-- task_applications.status: DB default 'pending'; the code writes
'approved' and 'rejected'. -/
inductive AppStatus where
  | pending
  | approved
  | rejected
  deriving DecidableEq

/-- A row of the `tasks` table, fields as in use-task-actions.ts and the
extended Database type (src/unnamed/part_002). -/
structure Task where
  id : String
  title : String
  description : String
  location : String
  reward : Nat
  deadline : String
  task_type : String
  creator_id : String
  doer_id : Option String
  status : TaskStatus
  requestor_verification_code : Option String
  doer_verification_code : Option String
  is_requestor_verified : Bool
  is_doer_verified : Bool
  is_requestor_rated : Bool
  is_doer_rated : Bool
  deriving DecidableEq

/-- A row of the `task_applications` table. -/
structure Application where
  id : String
  task_id : String
  applicant_id : String
  message : String
  status : AppStatus
  deriving DecidableEq

/-- A row of the `profiles` table, restricted to the rating aggregates the
core writes (src/unnamed/part_002 extends profiles with these). -/
structure Profile where
  id : String
  requestor_rating : Nat
  doer_rating : Nat
  deriving DecidableEq

/-- The shared backend database state. -/
structure DB where
  tasks : List Task
  apps : List Application
  profiles : List Profile
  deriving DecidableEq

/-- Result of handleCreateTask: the limit toast without an insert, or the
created projection. -/
inductive CreateResult where
  | limitReached
  | created (t : Task)
  deriving DecidableEq

/-- handleCreateTask (use-task-actions.ts lines 34-95).  The hook checks
`tasks.filter(t => t.status === 'active').length >= 3` over the client
copy of the creator's task list; that list is modelled as the creator's
rows of the shared store.  On success the insert sets the lifecycle
defaults: status 'active' (DB default, mirrored by the returned
projection), both rating flags false, no doer, no codes. -/
def handleCreateTask (db : DB) (creator newId title descr loc deadline
    task_type : String) (reward : Nat) : CreateResult × DB :=
  let myTasks := db.tasks.filter (fun t => t.creator_id = creator)
  if 3 ≤ (myTasks.filter (fun t => t.status = TaskStatus.active)).length then
    (CreateResult.limitReached, db)
  else
    let t : Task :=
      { id := newId, title := title, description := descr, location := loc,
        reward := reward, deadline := deadline, task_type := task_type,
        creator_id := creator, doer_id := none,
        status := TaskStatus.active,
        requestor_verification_code := none,
        doer_verification_code := none,
        is_requestor_verified := false, is_doer_verified := false,
        is_requestor_rated := false, is_doer_rated := false }
    (CreateResult.created t, { db with tasks := t :: db.tasks })

/-- Result of handleApplyForTask. -/
inductive ApplyResult where
  | alreadyApplied
  | submitted
  deriving DecidableEq

/-- handleApplyForTask (use-task-actions.ts lines 161-219): select
existing rows for (task_id, applicant_id) with limit(1); if any exist,
report "Already Applied" and insert nothing; otherwise insert a row whose
status defaults to 'pending'. -/
def handleApplyForTask (db : DB) (newId taskId applicantId msg : String) :
    ApplyResult × DB :=
  if db.apps.any (fun a => a.task_id = taskId ∧ a.applicant_id = applicantId) then
    (ApplyResult.alreadyApplied, db)
  else
    (ApplyResult.submitted,
      { db with apps := db.apps ++
          [{ id := newId, task_id := taskId, applicant_id := applicantId,
             message := msg, status := AppStatus.pending }] })

/-- Modelled from the spec: `generateVerificationCode` is passed to the
hook as a prop and its implementation is not part of the sources; per the
spec (§3, §4.2, §8) it generates fresh opaque codes at approval time, the
pair being distinct and non-empty. -/
def freshCodePair (c1 c2 : String) : Prop :=
  c1 ≠ "" ∧ c2 ≠ "" ∧ c1 ≠ c2

/-- handleApproveApplication (use-task-actions.ts lines 228-310), the
happy path (no backend error): (a) update the task row with the doer and
the two freshly generated codes, clearing all four flags; (b) set the
chosen application's status to 'approved' (matched by id only); (c) set
status 'rejected' on every other application of the same task. -/
def handleApproveApplication (db : DB)
    (applicationId taskId applicantId requestorCode doerCode : String) : DB :=
  let db1 : DB := { db with tasks := db.tasks.map (fun t =>
    if t.id = taskId then
      { t with doer_id := some applicantId,
               requestor_verification_code := some requestorCode,
               doer_verification_code := some doerCode,
               is_requestor_verified := false, is_doer_verified := false,
               is_requestor_rated := false, is_doer_rated := false }
    else t) }
  let db2 : DB := { db1 with apps := db1.apps.map (fun a =>
    if a.id = applicationId then { a with status := AppStatus.approved } else a) }
  { db2 with apps := db2.apps.map (fun a =>
    if a.task_id = taskId ∧ a.id ≠ applicationId then
      { a with status := AppStatus.rejected }
    else a) }

/-- handleCancelTask (use-task-actions.ts lines 97-124): a single update
setting status 'completed' on the row, unconditionally. -/
def handleCancelTask (db : DB) (taskId : String) : DB :=
  { db with tasks := db.tasks.map (fun t =>
    if t.id = taskId then { t with status := TaskStatus.completed } else t) }

/-- handleEditTask (use-task-actions.ts lines 126-159): overwrites
title/description/location/reward/deadline only; lifecycle fields are
untouched. -/
def handleEditTask (db : DB) (taskId title descr loc deadline : String)
    (reward : Nat) : DB :=
  { db with tasks := db.tasks.map (fun t =>
    if t.id = taskId then
      { t with title := title, description := descr, location := loc,
               reward := reward, deadline := deadline }
    else t) }

/-- Outcomes of the two backend calls inside handleVerifyCode: the
flag update and the subsequent re-read of both flags. -/
structure VerifyEnv where
  updateOk : Bool
  fetchOk : Bool
  deriving DecidableEq

/-- handleVerifyCode (use-task-actions.ts lines 343-418).  The task is
looked up in the client lists `[...tasks, ...appliedTasks]`, modelled as
the store rows.  The caller's role is decided by comparing the caller to
doer_id; the presented code is compared to the *counterparty's* stored
code (string vs possibly-undefined, so an absent code never matches).  On
mismatch: return false, nothing written.  On match: persist the caller's
own verified flag (if the update errors, nothing is written and false is
returned), then re-read both flags; if that re-read fails the whole call
is caught and returns false even though the flag update has already
been persisted. -/
def handleVerifyCode (db : DB) (env : VerifyEnv)
    (userId taskId code : String) : Bool × DB :=
  match db.tasks.find? (fun t => t.id = taskId) with
  | none => (false, db)
  | some task =>
    let isDoer : Bool := task.doer_id = some userId
    let expected : Option String :=
      if isDoer then task.requestor_verification_code
      else task.doer_verification_code
    if some code ≠ expected then (false, db)
    else if !env.updateOk then (false, db)
    else
      let db' := { db with tasks := db.tasks.map (fun t =>
        if t.id = taskId then
          (if isDoer then { t with is_doer_verified := true }
           else { t with is_requestor_verified := true })
        else t) }
      if !env.fetchOk then (false, db')
      else (true, db')

/-- Outcome of the completion re-read inside handleSubmitRating: the
`.single()` select of both rated flags (use-task-actions.ts lines
501-506), whose destructured `taskData` is null when the read fails. -/
structure RateEnv where
  rereadOk : Bool
  deriving DecidableEq

/-- handleSubmitRating (use-task-actions.ts lines 420-543).  The task is
looked up in the client lists; the caller's role is decided by comparing
the caller to doer_id.  The caller's rating is written onto the
counterparty's profile aggregate (requestor_rating of the creator for a
doer's call, doer_rating of the doer for a requestor's call) — but only
if the counterparty's profile row was found — then the caller's own
is_*_rated flag is set.  Finally both flags are re-read into `taskData`
(null when that read fails — the guard `if (taskData && ...)` then skips
completion and the call still reports success, leaving the flag
persisted with status unchanged, spec §7's partial state); if the
re-read succeeds with both flags true, status is set to 'completed'. -/
def handleSubmitRating (db : DB) (env : RateEnv) (userId taskId : String)
    (rating : Nat) : Bool × DB :=
  match db.tasks.find? (fun t => t.id = taskId) with
  | none => (false, db)
  | some currentTask =>
    let isDoer : Bool := currentTask.doer_id = some userId
    let db2 : DB :=
      if isDoer then
        let db1 : DB :=
          if db.profiles.any (fun p => p.id = currentTask.creator_id) then
            { db with profiles := db.profiles.map (fun p =>
              if p.id = currentTask.creator_id then
                { p with requestor_rating := rating }
              else p) }
          else db
        { db1 with tasks := db1.tasks.map (fun t =>
          if t.id = currentTask.id then { t with is_doer_rated := true } else t) }
      else
        let doerId := currentTask.doer_id.getD ""
        let db1 : DB :=
          if db.profiles.any (fun p => p.id = doerId) then
            { db with profiles := db.profiles.map (fun p =>
              if p.id = doerId then { p with doer_rating := rating } else p) }
          else db
        { db1 with tasks := db1.tasks.map (fun t =>
          if t.id = currentTask.id then { t with is_requestor_rated := true } else t) }
    let taskData : Option Task :=
      if env.rereadOk then db2.tasks.find? (fun t => t.id = currentTask.id)
      else none
    match taskData with
    | none => (true, db2)
    | some t =>
      if t.is_requestor_rated ∧ t.is_doer_rated then
        (true, { db2 with tasks := db2.tasks.map (fun x =>
          if x.id = currentTask.id then { x with status := TaskStatus.completed }
          else x) })
      else (true, db2)

/-- C4: `handleCreateTask` reports the limit error — inserting nothing —
iff the creator already has at least 3 tasks with status active;
otherwise the persisted task is active with both rating flags false,
belongs to the creator, and is returned as the created projection. -/
theorem createTask_limit_iff (db : DB)
    (creator newId title descr loc deadline ttype : String) (reward : Nat) :
    ((handleCreateTask db creator newId title descr loc deadline ttype reward).1
        = CreateResult.limitReached
      ↔ 3 ≤ ((db.tasks.filter (fun t => t.creator_id = creator)).filter
              (fun t => t.status = TaskStatus.active)).length)
    ∧ ((handleCreateTask db creator newId title descr loc deadline ttype reward).1
          = CreateResult.limitReached
        → (handleCreateTask db creator newId title descr loc deadline ttype reward).2 = db)
    ∧ (∀ t, (handleCreateTask db creator newId title descr loc deadline ttype reward).1
          = CreateResult.created t
        → t.status = TaskStatus.active ∧ t.is_requestor_rated = false
          ∧ t.is_doer_rated = false ∧ t.creator_id = creator
          ∧ (handleCreateTask db creator newId title descr loc deadline ttype reward).2.tasks
              = t :: db.tasks) := by
  simp only [handleCreateTask]
  split
  next h =>
    exact ⟨iff_of_true rfl h, fun _ => rfl, fun t ht => absurd ht (by simp)⟩
  next h =>
    refine ⟨iff_of_false (by simp) h, fun hx => absurd hx (by simp),
      fun t ht => ?_⟩
    injection ht with h'
    subst h'
    exact ⟨rfl, rfl, rfl, rfl, rfl⟩

/-- Witness for C4: on an empty store the limit branch is not taken. -/
theorem createTask_limit_iff_witness :
    ¬ ((handleCreateTask ⟨[], [], []⟩ "u1" "t1" "T" "D" "L" "dl" "normal" 5).1
        = CreateResult.limitReached) :=
  fun h =>
    absurd ((createTask_limit_iff ⟨[], [], []⟩ "u1" "t1" "T" "D" "L" "dl" "normal" 5).1.mp h)
      (by decide)

/-- C5: `handleApplyForTask` fails with Already Applied — inserting no
row — whenever a prior application for the same (taskId, applicantId)
pair exists, and otherwise appends exactly one new application whose
status is pending, leaving everything else unchanged. -/
theorem apply_duplicate_iff (db : DB) (newId taskId applicantId msg : String) :
    ((∃ a ∈ db.apps, a.task_id = taskId ∧ a.applicant_id = applicantId) →
       handleApplyForTask db newId taskId applicantId msg
         = (ApplyResult.alreadyApplied, db))
    ∧ (¬ (∃ a ∈ db.apps, a.task_id = taskId ∧ a.applicant_id = applicantId) →
       (handleApplyForTask db newId taskId applicantId msg).1 = ApplyResult.submitted
       ∧ (handleApplyForTask db newId taskId applicantId msg).2.apps
           = db.apps ++ [{ id := newId, task_id := taskId,
                           applicant_id := applicantId, message := msg,
                           status := AppStatus.pending }]
       ∧ (handleApplyForTask db newId taskId applicantId msg).2.tasks = db.tasks
       ∧ (handleApplyForTask db newId taskId applicantId msg).2.profiles
           = db.profiles) := by
  by_cases h : ∃ a ∈ db.apps, a.task_id = taskId ∧ a.applicant_id = applicantId
  · refine ⟨fun _ => ?_, fun hn => absurd h hn⟩
    simp [handleApplyForTask, h]
  · refine ⟨fun hx => absurd hx h, fun _ => ?_⟩
    simp [handleApplyForTask, h]

/-- Witness for C5: on a store holding one application for the pair
("T1", "u2"), a second apply call is refused and changes nothing. -/
theorem apply_duplicate_iff_witness :
    handleApplyForTask
        ⟨[], [{ id := "a1", task_id := "T1", applicant_id := "u2",
                message := "hi", status := AppStatus.pending }], []⟩
        "a2" "T1" "u2" "again"
      = (ApplyResult.alreadyApplied,
         ⟨[], [{ id := "a1", task_id := "T1", applicant_id := "u2",
                 message := "hi", status := AppStatus.pending }], []⟩) :=
  (apply_duplicate_iff
      ⟨[], [{ id := "a1", task_id := "T1", applicant_id := "u2",
              message := "hi", status := AppStatus.pending }], []⟩
      "a2" "T1" "u2" "again").1
    ⟨{ id := "a1", task_id := "T1", applicant_id := "u2",
       message := "hi", status := AppStatus.pending }, by decide, by decide⟩

/-- The three application updates of an approval compose into one map:
the chosen id becomes approved, every other application of the task
becomes rejected, the rest is untouched. -/
lemma approve_apps_eq (db : DB) (aid tid pid c1 c2 : String) :
    (handleApproveApplication db aid tid pid c1 c2).apps
      = db.apps.map (fun a =>
          if a.id = aid then { a with status := AppStatus.approved }
          else if a.task_id = tid then { a with status := AppStatus.rejected }
          else a) := by
  simp only [handleApproveApplication, List.map_map]
  apply List.map_congr_left
  intro a _
  by_cases hid : a.id = aid
  · simp [hid]
  · by_cases htid : a.task_id = tid <;> simp [hid, htid]

/-- The approval's task update, projected out. -/
lemma approve_tasks_eq (db : DB) (aid tid pid c1 c2 : String) :
    (handleApproveApplication db aid tid pid c1 c2).tasks
      = db.tasks.map (fun t =>
          if t.id = tid then
            { t with doer_id := some pid,
                     requestor_verification_code := some c1,
                     doer_verification_code := some c2,
                     is_requestor_verified := false, is_doer_verified := false,
                     is_requestor_rated := false, is_doer_rated := false }
          else t) := rfl

/-- C1: after a successful approval whose chosen application exists
uniquely and belongs to the task, exactly one application of the task is
approved (the chosen one), every other application of the task is
rejected, the task's doer is the applicant, the task carries the two
distinct non-empty generated codes, and both verified flags are false. -/
theorem approve_postcondition (db : DB)
    (applicationId taskId applicantId rcode dcode : String)
    (hfresh : freshCodePair rcode dcode)
    (happ : db.apps.countP (fun a => a.id = applicationId) = 1)
    (htid : ∀ a ∈ db.apps, a.id = applicationId → a.task_id = taskId)
    (htask : ∃ t ∈ db.tasks, t.id = taskId) :
    ((handleApproveApplication db applicationId taskId applicantId rcode dcode).apps.countP
        (fun a => a.task_id = taskId ∧ a.status = AppStatus.approved) = 1)
    ∧ (∀ a ∈ (handleApproveApplication db applicationId taskId applicantId rcode dcode).apps,
        a.id = applicationId → a.status = AppStatus.approved)
    ∧ (∀ a ∈ (handleApproveApplication db applicationId taskId applicantId rcode dcode).apps,
        a.task_id = taskId → a.id ≠ applicationId → a.status = AppStatus.rejected)
    ∧ (∃ t ∈ (handleApproveApplication db applicationId taskId applicantId rcode dcode).tasks,
        t.id = taskId)
    ∧ (∀ t ∈ (handleApproveApplication db applicationId taskId applicantId rcode dcode).tasks,
        t.id = taskId →
          t.doer_id = some applicantId
          ∧ t.requestor_verification_code = some rcode
          ∧ t.doer_verification_code = some dcode
          ∧ rcode ≠ "" ∧ dcode ≠ "" ∧ rcode ≠ dcode
          ∧ t.is_requestor_verified = false ∧ t.is_doer_verified = false) := by
  obtain ⟨hne1, hne2, hnedist⟩ := hfresh
  rw [approve_apps_eq, approve_tasks_eq]
  refine ⟨?_, ?_, ?_, ?_, ?_⟩
  · rw [List.countP_map]
    rw [← happ]
    apply List.countP_congr
    intro a ha
    by_cases hid : a.id = applicationId
    · have := htid a ha hid
      simp [Function.comp, hid, this]
    · by_cases ht : a.task_id = taskId <;> simp [Function.comp, hid, ht]
  · intro a' ha' hid'
    obtain ⟨a, _, rfl⟩ := List.mem_map.mp ha'
    by_cases hid : a.id = applicationId
    · simp [hid]
    · by_cases ht : a.task_id = taskId <;> simp_all
  · intro a' ha' ht' hid'
    obtain ⟨a, _, rfl⟩ := List.mem_map.mp ha'
    by_cases hid : a.id = applicationId
    · simp_all
    · by_cases ht : a.task_id = taskId <;> simp_all
  · obtain ⟨t, ht, hid⟩ := htask
    refine ⟨_, List.mem_map.mpr ⟨t, ht, rfl⟩, ?_⟩
    simp [hid]
  · intro t' ht' hid'
    obtain ⟨t, _, rfl⟩ := List.mem_map.mp ht'
    by_cases hid : t.id = taskId
    · simp [hid, hne1, hne2, hnedist]
    · simp [hid] at hid'

/-- Witness for C1: on a store with one task and two applications for
it, approving the first yields the full postcondition. -/
theorem approve_postcondition_witness :
    ((handleApproveApplication
        ⟨[{ id := "T1", title := "t", description := "", location := "",
            reward := 1, deadline := "d", task_type := "normal",
            creator_id := "u1", doer_id := none, status := TaskStatus.active,
            requestor_verification_code := none, doer_verification_code := none,
            is_requestor_verified := false, is_doer_verified := false,
            is_requestor_rated := false, is_doer_rated := false }],
          [{ id := "a1", task_id := "T1", applicant_id := "u2",
             message := "", status := AppStatus.pending },
           { id := "a2", task_id := "T1", applicant_id := "u3",
             message := "", status := AppStatus.pending }], []⟩
        "a1" "T1" "u2" "R1" "D1").apps.countP
        (fun a => a.task_id = "T1" ∧ a.status = AppStatus.approved) = 1)
    ∧ (∀ t ∈ (handleApproveApplication
        ⟨[{ id := "T1", title := "t", description := "", location := "",
            reward := 1, deadline := "d", task_type := "normal",
            creator_id := "u1", doer_id := none, status := TaskStatus.active,
            requestor_verification_code := none, doer_verification_code := none,
            is_requestor_verified := false, is_doer_verified := false,
            is_requestor_rated := false, is_doer_rated := false }],
          [{ id := "a1", task_id := "T1", applicant_id := "u2",
             message := "", status := AppStatus.pending },
           { id := "a2", task_id := "T1", applicant_id := "u3",
             message := "", status := AppStatus.pending }], []⟩
        "a1" "T1" "u2" "R1" "D1").tasks,
        t.id = "T1" →
          t.doer_id = some "u2"
          ∧ t.requestor_verification_code = some "R1"
          ∧ t.doer_verification_code = some "D1"
          ∧ "R1" ≠ "" ∧ "D1" ≠ "" ∧ "R1" ≠ "D1"
          ∧ t.is_requestor_verified = false ∧ t.is_doer_verified = false) :=
  ⟨(approve_postcondition
      ⟨[{ id := "T1", title := "t", description := "", location := "",
          reward := 1, deadline := "d", task_type := "normal",
          creator_id := "u1", doer_id := none, status := TaskStatus.active,
          requestor_verification_code := none, doer_verification_code := none,
          is_requestor_verified := false, is_doer_verified := false,
          is_requestor_rated := false, is_doer_rated := false }],
        [{ id := "a1", task_id := "T1", applicant_id := "u2",
           message := "", status := AppStatus.pending },
         { id := "a2", task_id := "T1", applicant_id := "u3",
           message := "", status := AppStatus.pending }], []⟩
      "a1" "T1" "u2" "R1" "D1"
      ⟨by decide, by decide, by decide⟩ (by decide) (by decide)
      ⟨{ id := "T1", title := "t", description := "", location := "",
         reward := 1, deadline := "d", task_type := "normal",
         creator_id := "u1", doer_id := none, status := TaskStatus.active,
         requestor_verification_code := none, doer_verification_code := none,
         is_requestor_verified := false, is_doer_verified := false,
         is_requestor_rated := false, is_doer_rated := false }, by decide, by decide⟩).1,
   (approve_postcondition
      ⟨[{ id := "T1", title := "t", description := "", location := "",
          reward := 1, deadline := "d", task_type := "normal",
          creator_id := "u1", doer_id := none, status := TaskStatus.active,
          requestor_verification_code := none, doer_verification_code := none,
          is_requestor_verified := false, is_doer_verified := false,
          is_requestor_rated := false, is_doer_rated := false }],
        [{ id := "a1", task_id := "T1", applicant_id := "u2",
           message := "", status := AppStatus.pending },
         { id := "a2", task_id := "T1", applicant_id := "u3",
           message := "", status := AppStatus.pending }], []⟩
      "a1" "T1" "u2" "R1" "D1"
      ⟨by decide, by decide, by decide⟩ (by decide) (by decide)
      ⟨{ id := "T1", title := "t", description := "", location := "",
         reward := 1, deadline := "d", task_type := "normal",
         creator_id := "u1", doer_id := none, status := TaskStatus.active,
         requestor_verification_code := none, doer_verification_code := none,
         is_requestor_verified := false, is_doer_verified := false,
         is_requestor_rated := false, is_doer_rated := false }, by decide, by decide⟩).2.2.2.2⟩

/-- A task row with neutral field values, used to build concrete
instances. -/
def baseTask : Task :=
  { id := "", title := "", description := "", location := "", reward := 0,
    deadline := "", task_type := "normal", creator_id := "", doer_id := none,
    status := TaskStatus.active,
    requestor_verification_code := none, doer_verification_code := none,
    is_requestor_verified := false, is_doer_verified := false,
    is_requestor_rated := false, is_doer_rated := false }

/-- C3: on an assigned task, the requestor presenting the doer's stored
code (with both backend calls succeeding) gets true and the store changes
only by setting is_requestor_verified on the task's rows — in particular
is_doer_verified is untouched; symmetrically for the doer presenting the
requestor's code; and presenting a code that does not match the
counterparty's stored code returns false and mutates nothing, whatever
the backend would have answered. -/
theorem verifyCode_crosswise (db : DB) (env : VerifyEnv)
    (reqId doerId taskId rcode dcode code : String) (ct : Task)
    (hfind : db.tasks.find? (fun t => t.id = taskId) = some ct)
    (hassigned : ct.doer_id = some doerId)
    (hrc : ct.requestor_verification_code = some rcode)
    (hdc : ct.doer_verification_code = some dcode)
    (hreq : reqId ≠ doerId) :
    ((handleVerifyCode db ⟨true, true⟩ reqId taskId dcode).1 = true
      ∧ (handleVerifyCode db ⟨true, true⟩ reqId taskId dcode).2.tasks
          = db.tasks.map (fun t =>
              if t.id = taskId then { t with is_requestor_verified := true }
              else t))
    ∧ ((handleVerifyCode db ⟨true, true⟩ doerId taskId rcode).1 = true
      ∧ (handleVerifyCode db ⟨true, true⟩ doerId taskId rcode).2.tasks
          = db.tasks.map (fun t =>
              if t.id = taskId then { t with is_doer_verified := true }
              else t))
    ∧ (code ≠ dcode →
        handleVerifyCode db env reqId taskId code = (false, db))
    ∧ (code ≠ rcode →
        handleVerifyCode db env doerId taskId code = (false, db)) := by
  have hnotdoer : ct.doer_id ≠ some reqId := by
    rw [hassigned]
    intro hx
    exact hreq (Option.some.injEq _ _ ▸ hx).symm
  refine ⟨?_, ?_, ?_, ?_⟩
  · simp [handleVerifyCode, hfind, hnotdoer, hdc]
  · simp [handleVerifyCode, hfind, hassigned, hrc]
  · intro hne
    simp [handleVerifyCode, hfind, hnotdoer, hdc, hne]
  · intro hne
    simp [handleVerifyCode, hfind, hassigned, hrc, hne]

/-- A concrete assigned task used to exercise handleVerifyCode: creator
u1, doer u2, requestor code R1, doer code D1. -/
def verifyTask : Task :=
  { baseTask with
      id := "T1", creator_id := "u1", doer_id := some "u2",
      requestor_verification_code := some "R1",
      doer_verification_code := some "D1" }

/-- A store holding only `verifyTask`. -/
def verifyDB : DB := ⟨[verifyTask], [], []⟩

/-- Witness for C3: on `verifyDB` the requestor enters the doer's code
successfully and a wrong code is refused without mutation. -/
theorem verifyCode_crosswise_witness :
    ((handleVerifyCode verifyDB ⟨true, true⟩ "u1" "T1" "D1").1 = true
      ∧ (handleVerifyCode verifyDB ⟨true, true⟩ "u1" "T1" "D1").2.tasks
          = verifyDB.tasks.map (fun t =>
              if t.id = "T1" then { t with is_requestor_verified := true }
              else t))
    ∧ ("X" ≠ "D1" →
        handleVerifyCode verifyDB ⟨true, true⟩ "u1" "T1" "X"
          = (false, verifyDB)) :=
  ⟨(verifyCode_crosswise verifyDB ⟨true, true⟩ "u1" "u2" "T1" "R1" "D1" "X"
      verifyTask (by decide) (by decide) (by decide) (by decide)
      (by decide)).1,
   (verifyCode_crosswise verifyDB ⟨true, true⟩ "u1" "u2" "T1" "R1" "D1" "X"
      verifyTask (by decide) (by decide) (by decide) (by decide)
      (by decide)).2.2.1⟩

/-- A concrete assigned task for the partial-failure execution of C9. -/
def verifyTask9 : Task :=
  { baseTask with
      id := "T9", creator_id := "u1", doer_id := some "u2",
      requestor_verification_code := some "R9",
      doer_verification_code := some "D9" }

/-- A store holding only `verifyTask9`. -/
def verifyDB9 : DB := ⟨[verifyTask9], [], []⟩

/-- C9: a false return of handleVerifyCode does not mean the store was
left unchanged.  Here the doer presents the matching (requestor's) code,
the flag update is persisted, and then the re-read of the two flags
fails: the call returns false although is_doer_verified has already been
written as true. -/
theorem verifyCode_false_after_persist :
    ((handleVerifyCode verifyDB9 ⟨true, false⟩ "u2" "T9" "R9").1 = false)
    ∧ (∀ t ∈ (handleVerifyCode verifyDB9 ⟨true, false⟩ "u2" "T9" "R9").2.tasks,
        t.is_doer_verified = true) := by
  decide

/-- Updating rows by id does not change which row `find?` locates. -/
lemma find?_map_id_pres (l : List Task) (F : Task → Task)
    (hF : ∀ t, (F t).id = t.id) (x : String) (c : Task)
    (h : l.find? (fun t => t.id = x) = some c) :
    (l.map F).find? (fun t => t.id = x) = some (F c) := by
  rw [List.find?_map]
  have hpe : ((fun t : Task => decide (t.id = x)) ∘ F)
      = fun t : Task => decide (t.id = x) := by
    funext t
    simp [Function.comp, hF]
  rw [hpe, h]
  rfl

/-- Updating profile rows by id does not change an existence check. -/
lemma any_map_id_pres (l : List Profile) (F : Profile → Profile)
    (hF : ∀ p, (F p).id = p.id) (x : String) :
    (l.map F).any (fun p => p.id = x) = l.any (fun p => p.id = x) := by
  rw [List.any_map]
  congr 1
  funext p
  simp [Function.comp, hF]

/-- A doer's rating call, under a successful lookup, an assigned task and
an existing creator profile, returns true and rewrites the store by one
map over tasks (set is_doer_rated, and complete the task if the re-read
succeeds and sees both flags) and one map over profiles (overwrite the
creator's requestor_rating). -/
lemma submitRating_doer_eq (db : DB) (env : RateEnv) (doerId taskId : String)
    (rating : Nat) (ct : Task)
    (hfind : db.tasks.find? (fun t => t.id = taskId) = some ct)
    (hdoer : ct.doer_id = some doerId)
    (hprof : db.profiles.any (fun p => p.id = ct.creator_id) = true) :
    handleSubmitRating db env doerId taskId rating
      = (true,
         { tasks := db.tasks.map (fun t =>
             if t.id = ct.id then
               (if env.rereadOk = true ∧ ct.is_requestor_rated = true then
                 { t with is_doer_rated := true,
                          status := TaskStatus.completed }
                else { t with is_doer_rated := true })
             else t),
           apps := db.apps,
           profiles := db.profiles.map (fun p =>
             if p.id = ct.creator_id then { p with requestor_rating := rating }
             else p) }) := by
  have hctid : ct.id = taskId := by
    have h := List.find?_some hfind
    simpa using h
  have hfind1 : db.tasks.find? (fun t => t.id = ct.id) = some ct := by
    rw [hctid]
    exact hfind
  have hfind2 : (db.tasks.map (fun t : Task =>
      if t.id = ct.id then { t with is_doer_rated := true } else t)).find?
        (fun t => t.id = ct.id)
      = some { ct with is_doer_rated := true } := by
    have := find?_map_id_pres db.tasks
      (fun t : Task => if t.id = ct.id then { t with is_doer_rated := true } else t)
      (fun t => by by_cases h : t.id = ct.id <;> simp [h]) ct.id ct hfind1
    simpa using this
  by_cases he : env.rereadOk <;> by_cases hb : ct.is_requestor_rated
  · simp [handleSubmitRating, hfind, hdoer, hprof, hfind2, he, hb,
      List.map_map]
    intro t _
    by_cases h : t.id = ct.id <;> simp [h]
  · simp [handleSubmitRating, hfind, hdoer, hprof, hfind2, he, hb,
      List.map_map]
  · simp [handleSubmitRating, hfind, hdoer, hprof, hfind2, he, hb,
      List.map_map]
  · simp [handleSubmitRating, hfind, hdoer, hprof, hfind2, he, hb,
      List.map_map]

/-- A requestor's (non-doer's) rating call, under a successful lookup, an
assigned task and an existing doer profile, returns true and rewrites the
store by one map over tasks (set is_requestor_rated, and complete the
task if the re-read succeeds and sees both flags) and one map over
profiles (overwrite the doer's doer_rating). -/
lemma submitRating_req_eq (db : DB) (env : RateEnv)
    (reqId doerId taskId : String) (rating : Nat) (ct : Task)
    (hfind : db.tasks.find? (fun t => t.id = taskId) = some ct)
    (hdoer : ct.doer_id = some doerId)
    (hne : reqId ≠ doerId)
    (hprof : db.profiles.any (fun p => p.id = doerId) = true) :
    handleSubmitRating db env reqId taskId rating
      = (true,
         { tasks := db.tasks.map (fun t =>
             if t.id = ct.id then
               (if env.rereadOk = true ∧ ct.is_doer_rated = true then
                 { t with is_requestor_rated := true,
                          status := TaskStatus.completed }
                else { t with is_requestor_rated := true })
             else t),
           apps := db.apps,
           profiles := db.profiles.map (fun p =>
             if p.id = doerId then { p with doer_rating := rating }
             else p) }) := by
  have hctid : ct.id = taskId := by
    have h := List.find?_some hfind
    simpa using h
  have hfind1 : db.tasks.find? (fun t => t.id = ct.id) = some ct := by
    rw [hctid]
    exact hfind
  have hfind2 : (db.tasks.map (fun t : Task =>
      if t.id = ct.id then { t with is_requestor_rated := true } else t)).find?
        (fun t => t.id = ct.id)
      = some { ct with is_requestor_rated := true } := by
    have := find?_map_id_pres db.tasks
      (fun t : Task => if t.id = ct.id then { t with is_requestor_rated := true } else t)
      (fun t => by by_cases h : t.id = ct.id <;> simp [h]) ct.id ct hfind1
    simpa using this
  have hnotdoer : ¬ (ct.doer_id = some reqId) := by
    rw [hdoer]
    intro hx
    exact hne (Option.some.injEq _ _ ▸ hx).symm
  have hgetD : ct.doer_id.getD "" = doerId := by rw [hdoer]; rfl
  by_cases he : env.rereadOk <;> by_cases hb : ct.is_doer_rated
  · simp [handleSubmitRating, hfind, hnotdoer, hgetD, hprof, hfind2, he, hb,
      List.map_map]
    intro t _
    by_cases h : t.id = ct.id <;> simp [h]
  · simp [handleSubmitRating, hfind, hnotdoer, hgetD, hprof, hfind2, he, hb,
      List.map_map]
  · simp [handleSubmitRating, hfind, hnotdoer, hgetD, hprof, hfind2, he, hb,
      List.map_map]
  · simp [handleSubmitRating, hfind, hnotdoer, hgetD, hprof, hfind2, he, hb,
      List.map_map]

/-- Facts about one doer rating call — whatever the completion re-read's
outcome — including the lookup facts needed to chain a second call on
the resulting store. -/
lemma submitRating_doer_facts (db : DB) (env : RateEnv)
    (doerId taskId : String) (r : Nat) (ct : Task)
    (hfind : db.tasks.find? (fun t => t.id = taskId) = some ct)
    (hdoer : ct.doer_id = some doerId)
    (hprof : db.profiles.any (fun p => p.id = ct.creator_id) = true) :
    (handleSubmitRating db env doerId taskId r).1 = true
    ∧ (∀ p ∈ (handleSubmitRating db env doerId taskId r).2.profiles,
        p.id = ct.creator_id → p.requestor_rating = r)
    ∧ (∀ p ∈ (handleSubmitRating db env doerId taskId r).2.profiles,
        p.id ≠ ct.creator_id → p ∈ db.profiles)
    ∧ (∀ t ∈ (handleSubmitRating db env doerId taskId r).2.tasks,
        t.id = taskId → t.is_doer_rated = true)
    ∧ (∃ ct', (handleSubmitRating db env doerId taskId r).2.tasks.find?
          (fun t => t.id = taskId) = some ct'
        ∧ ct'.doer_id = some doerId ∧ ct'.creator_id = ct.creator_id)
    ∧ ((handleSubmitRating db env doerId taskId r).2.profiles.any
        (fun p => p.id = ct.creator_id) = true) := by
  have hctid : ct.id = taskId := by
    have h := List.find?_some hfind
    simpa using h
  have heq := submitRating_doer_eq db env doerId taskId r ct hfind hdoer hprof
  rw [heq]
  have hFid : ∀ t : Task, ((fun t : Task =>
      if t.id = ct.id then
        (if env.rereadOk = true ∧ ct.is_requestor_rated = true then
          { t with is_doer_rated := true, status := TaskStatus.completed }
         else { t with is_doer_rated := true })
      else t) t).id = t.id := by
    intro t
    by_cases h : t.id = ct.id <;>
      by_cases hb : env.rereadOk = true ∧ ct.is_requestor_rated = true <;>
      simp [h, hb]
  have hPid : ∀ p : Profile, ((fun p : Profile =>
      if p.id = ct.creator_id then { p with requestor_rating := r } else p) p).id
        = p.id := by
    intro p
    by_cases h : p.id = ct.creator_id <;> simp [h]
  refine ⟨rfl, ?_, ?_, ?_, ?_, ?_⟩
  · intro p hp hpid
    simp only [List.mem_map] at hp
    obtain ⟨q, hq, rfl⟩ := hp
    by_cases h : q.id = ct.creator_id
    · simp [h]
    · exact absurd (by simpa [h] using hpid) h
  · intro p hp hpid
    simp only [List.mem_map] at hp
    obtain ⟨q, hq, rfl⟩ := hp
    by_cases h : q.id = ct.creator_id
    · exact absurd (by simpa [h]) hpid
    · simpa [h] using hq
  · intro t ht htid
    simp only [List.mem_map] at ht
    obtain ⟨u, hu, rfl⟩ := ht
    have huid : u.id = ct.id := by
      by_cases h : u.id = ct.id
      · exact h
      · exact absurd (by simpa [h] using htid) (hctid ▸ h)
    by_cases hb : env.rereadOk = true ∧ ct.is_requestor_rated = true <;>
      simp [huid, hb]
  · refine ⟨_, find?_map_id_pres db.tasks _ hFid taskId ct hfind, ?_, ?_⟩
    · by_cases hb : env.rereadOk = true ∧ ct.is_requestor_rated = true <;>
        simp [hb, hdoer]
    · by_cases hb : env.rereadOk = true ∧ ct.is_requestor_rated = true <;>
        simp [hb]
  · rw [any_map_id_pres db.profiles _ hPid ct.creator_id]
    exact hprof

/-- Facts about one requestor (non-doer) rating call, whatever the
completion re-read's outcome. -/
lemma submitRating_req_facts (db : DB) (env : RateEnv)
    (reqId doerId taskId : String) (r : Nat) (ct : Task)
    (hfind : db.tasks.find? (fun t => t.id = taskId) = some ct)
    (hdoer : ct.doer_id = some doerId)
    (hne : reqId ≠ doerId)
    (hprof : db.profiles.any (fun p => p.id = doerId) = true) :
    (handleSubmitRating db env reqId taskId r).1 = true
    ∧ (∀ p ∈ (handleSubmitRating db env reqId taskId r).2.profiles,
        p.id = doerId → p.doer_rating = r)
    ∧ (∀ p ∈ (handleSubmitRating db env reqId taskId r).2.profiles,
        p.id ≠ doerId → p ∈ db.profiles)
    ∧ (∀ t ∈ (handleSubmitRating db env reqId taskId r).2.tasks,
        t.id = taskId → t.is_requestor_rated = true) := by
  have hctid : ct.id = taskId := by
    have h := List.find?_some hfind
    simpa using h
  have heq := submitRating_req_eq db env reqId doerId taskId r ct hfind hdoer
    hne hprof
  rw [heq]
  refine ⟨rfl, ?_, ?_, ?_⟩
  · intro p hp hpid
    simp only [List.mem_map] at hp
    obtain ⟨q, hq, rfl⟩ := hp
    by_cases h : q.id = doerId
    · simp [h]
    · exact absurd (by simpa [h] using hpid) h
  · intro p hp hpid
    simp only [List.mem_map] at hp
    obtain ⟨q, hq, rfl⟩ := hp
    by_cases h : q.id = doerId
    · exact absurd (by simpa [h]) hpid
    · simpa [h] using hq
  · intro t ht htid
    simp only [List.mem_map] at ht
    obtain ⟨u, hu, rfl⟩ := ht
    have huid : u.id = ct.id := by
      by_cases h : u.id = ct.id
      · exact h
      · exact absurd (by simpa [h] using htid) (hctid ▸ h)
    by_cases hb : env.rereadOk = true ∧ ct.is_doer_rated = true <;>
      simp [huid, hb]

/-- C6: on an assigned task whose counterparty profiles exist — and
whatever the completion re-read's outcome on each call — the doer's
rating call writes the creator's requestor_rating with the given value
(last write wins — the stored value is simply overwritten), leaves other
profiles as they were, sets the caller's is_doer_rated flag and returns
true; the requestor's call symmetrically writes the doer's doer_rating
and sets is_requestor_rated; and a repeated call by the doer overwrites
the stored rating again, without error. -/
theorem submitRating_counterparty (db : DB) (doerId reqId taskId : String)
    (envA envB envC : RateEnv) (r1 r2 rr : Nat) (ct : Task)
    (hfind : db.tasks.find? (fun t => t.id = taskId) = some ct)
    (hdoer : ct.doer_id = some doerId)
    (hne : reqId ≠ doerId)
    (hprofC : db.profiles.any (fun p => p.id = ct.creator_id) = true)
    (hprofD : db.profiles.any (fun p => p.id = doerId) = true) :
    ((handleSubmitRating db envA doerId taskId r1).1 = true
     ∧ (∀ p ∈ (handleSubmitRating db envA doerId taskId r1).2.profiles,
         p.id = ct.creator_id → p.requestor_rating = r1)
     ∧ (∀ p ∈ (handleSubmitRating db envA doerId taskId r1).2.profiles,
         p.id ≠ ct.creator_id → p ∈ db.profiles)
     ∧ (∀ t ∈ (handleSubmitRating db envA doerId taskId r1).2.tasks,
         t.id = taskId → t.is_doer_rated = true))
    ∧ ((handleSubmitRating db envB reqId taskId rr).1 = true
     ∧ (∀ p ∈ (handleSubmitRating db envB reqId taskId rr).2.profiles,
         p.id = doerId → p.doer_rating = rr)
     ∧ (∀ p ∈ (handleSubmitRating db envB reqId taskId rr).2.profiles,
         p.id ≠ doerId → p ∈ db.profiles)
     ∧ (∀ t ∈ (handleSubmitRating db envB reqId taskId rr).2.tasks,
         t.id = taskId → t.is_requestor_rated = true))
    ∧ ((handleSubmitRating (handleSubmitRating db envA doerId taskId r1).2
          envC doerId taskId r2).1 = true
     ∧ (∀ p ∈ (handleSubmitRating
          (handleSubmitRating db envA doerId taskId r1).2
          envC doerId taskId r2).2.profiles,
         p.id = ct.creator_id → p.requestor_rating = r2)) := by
  have A := submitRating_doer_facts db envA doerId taskId r1 ct hfind hdoer
    hprofC
  have B := submitRating_req_facts db envB reqId doerId taskId rr ct hfind
    hdoer hne hprofD
  refine ⟨⟨A.1, A.2.1, A.2.2.1, A.2.2.2.1⟩, B, ?_⟩
  obtain ⟨ct', hfind', hdoer', hcreator'⟩ := A.2.2.2.2.1
  have hprof' : (handleSubmitRating db envA doerId taskId r1).2.profiles.any
      (fun p => p.id = ct'.creator_id) = true := by
    rw [hcreator']
    exact A.2.2.2.2.2
  have C := submitRating_doer_facts
    (handleSubmitRating db envA doerId taskId r1).2
    envC doerId taskId r2 ct' hfind' hdoer' hprof'
  refine ⟨C.1, ?_⟩
  intro p hp hpid
  exact C.2.1 p hp (hcreator' ▸ hpid)

/-- A concrete assigned task for exercising handleSubmitRating. -/
def rateTask : Task :=
  { baseTask with id := "T2", creator_id := "u1", doer_id := some "u2" }

/-- A store with `rateTask` and both parties' profiles. -/
def rateDB : DB :=
  ⟨[rateTask], [],
   [{ id := "u1", requestor_rating := 0, doer_rating := 0 },
    { id := "u2", requestor_rating := 0, doer_rating := 0 }]⟩

/-- Witness for C6: the doer u2 rates 5, writing the creator u1's
requestor_rating; rating again with 3 — here with the completion re-read
failing — still overwrites it without error. -/
theorem submitRating_counterparty_witness :
    ((handleSubmitRating rateDB ⟨true⟩ "u2" "T2" 5).1 = true
     ∧ (∀ p ∈ (handleSubmitRating rateDB ⟨true⟩ "u2" "T2" 5).2.profiles,
         p.id = "u1" → p.requestor_rating = 5))
    ∧ ((handleSubmitRating (handleSubmitRating rateDB ⟨true⟩ "u2" "T2" 5).2
          ⟨false⟩ "u2" "T2" 3).1 = true
     ∧ (∀ p ∈ (handleSubmitRating
          (handleSubmitRating rateDB ⟨true⟩ "u2" "T2" 5).2
          ⟨false⟩ "u2" "T2" 3).2.profiles,
         p.id = "u1" → p.requestor_rating = 3)) :=
  ⟨⟨(submitRating_counterparty rateDB "u2" "u1" "T2" ⟨true⟩ ⟨true⟩ ⟨false⟩
       5 3 4 rateTask
       (by decide) (by decide) (by decide) (by decide) (by decide)).1.1,
    (submitRating_counterparty rateDB "u2" "u1" "T2" ⟨true⟩ ⟨true⟩ ⟨false⟩
       5 3 4 rateTask
       (by decide) (by decide) (by decide) (by decide) (by decide)).1.2.1⟩,
   ⟨(submitRating_counterparty rateDB "u2" "u1" "T2" ⟨true⟩ ⟨true⟩ ⟨false⟩
       5 3 4 rateTask
       (by decide) (by decide) (by decide) (by decide) (by decide)).2.2.1,
    (submitRating_counterparty rateDB "u2" "u1" "T2" ⟨true⟩ ⟨true⟩ ⟨false⟩
       5 3 4 rateTask
       (by decide) (by decide) (by decide) (by decide) (by decide)).2.2.2⟩⟩

/-- One user-initiated task operation; C2's step relation is generated by
these six. -/
inductive Op where
  | create (creator newId title descr loc deadline task_type : String)
      (reward : Nat)
  | cancel (taskId : String)
  | edit (taskId title descr loc deadline : String) (reward : Nat)
  | approve (applicationId taskId applicantId requestorCode doerCode : String)
  | verify (env : VerifyEnv) (userId taskId code : String)
  | rate (env : RateEnv) (userId taskId : String) (rating : Nat)
  deriving DecidableEq

/-- The store after one operation. -/
def applyOp (db : DB) : Op → DB
  | Op.create c nid t d l dl tt r => (handleCreateTask db c nid t d l dl tt r).2
  | Op.cancel tid => handleCancelTask db tid
  | Op.edit tid t d l dl r => handleEditTask db tid t d l dl r
  | Op.approve aid tid pid c1 c2 => handleApproveApplication db aid tid pid c1 c2
  | Op.verify env uid tid code => (handleVerifyCode db env uid tid code).2
  | Op.rate env uid tid r => (handleSubmitRating db env uid tid r).2

/-- Whether an operation is a cancelTask call. -/
def isCancel : Op → Bool
  | Op.cancel _ => true
  | _ => false

/-- Whether the operation's completion re-read (the `taskData` select of
handleSubmitRating) succeeds: only rating steps carry one, every other
operation trivially counts as succeeded. -/
def rateRereadOk : Op → Bool
  | Op.rate env _ _ _ => env.rereadOk
  | _ => true

/-- The property C2 claims of one pre/post row pair: the row's status
becomes completed exactly when both rated flags hold afterwards. -/
def completionIffRated (t t' : Task) : Prop :=
  ((¬ t.status = TaskStatus.completed) ∧ t'.status = TaskStatus.completed →
    t'.is_requestor_rated = true ∧ t'.is_doer_rated = true)
  ∧ ((¬ (t.is_requestor_rated = true ∧ t.is_doer_rated = true))
     ∧ t'.is_requestor_rated = true ∧ t'.is_doer_rated = true →
     t'.status = TaskStatus.completed)

instance (t t' : Task) : Decidable (completionIffRated t t') := by
  unfold completionIffRated
  exact inferInstance

/-- The amended pair property: as `completionIffRated`, except that a
cancelTask step may complete the row without the rated flags, and that
the row provably completes when the rated flags become true only if the
step's completion re-read succeeded — when it fails, the source's
`if (taskData && ...)` guard skips the completion update and the flags
stay persisted with status unchanged (spec §7's partial state). -/
def completionIffRatedOrCancel (op : Op) (t t' : Task) : Prop :=
  ((¬ t.status = TaskStatus.completed) ∧ t'.status = TaskStatus.completed →
    (t'.is_requestor_rated = true ∧ t'.is_doer_rated = true)
    ∨ isCancel op = true)
  ∧ ((¬ (t.is_requestor_rated = true ∧ t.is_doer_rated = true))
     ∧ t'.is_requestor_rated = true ∧ t'.is_doer_rated = true
     ∧ rateRereadOk op = true →
     t'.status = TaskStatus.completed)

instance (op : Op) (t t' : Task) :
    Decidable (completionIffRatedOrCancel op t t') := by
  unfold completionIffRatedOrCancel
  exact inferInstance

/-- Rows with nodup ids are determined by their id. -/
lemma eq_of_mem_id (l : List Task) (hnd : (l.map Task.id).Nodup) {a b : Task}
    (ha : a ∈ l) (hb : b ∈ l) (h : a.id = b.id) : a = b :=
  List.inj_on_of_nodup_map hnd ha hb h

/-- A step that does not change a row's status and cannot newly satisfy
both rated flags satisfies the amended pair property. -/
lemma pair_of_no_complete_no_rate (op : Op) (t t' : Task)
    (hstat : t'.status = t.status)
    (hflag : t'.is_requestor_rated = true → t'.is_doer_rated = true →
      t.is_requestor_rated = true ∧ t.is_doer_rated = true) :
    completionIffRatedOrCancel op t t' := by
  constructor
  · rintro ⟨h1, h2⟩
    rw [hstat] at h2
    exact absurd h2 h1
  · rintro ⟨h1, h2, h3, h4⟩
    exact absurd (hflag h2 h3) h1

/-- The amended pair property holds of an unchanged row. -/
lemma pair_id (op : Op) (t : Task) : completionIffRatedOrCancel op t t :=
  pair_of_no_complete_no_rate op t t rfl (fun h2 h3 => ⟨h2, h3⟩)

/-- A freshly created row (active, unrated) satisfies the amended pair
property against any pre row. -/
lemma pair_of_fresh (op : Op) (t t' : Task)
    (hstat : t'.status = TaskStatus.active)
    (hflag : t'.is_requestor_rated = false) :
    completionIffRatedOrCancel op t t' := by
  constructor
  · rintro ⟨h1, h2⟩
    rw [hstat] at h2
    exact TaskStatus.noConfusion h2
  · rintro ⟨h1, h2, h3, h4⟩
    rw [hflag] at h2
    exact Bool.noConfusion h2

/-- Pairing rows by id across an id-preserving map reduces to the
pointwise property. -/
lemma forall_pairs_of_map (l : List Task) (hnd : (l.map Task.id).Nodup)
    (F : Task → Task) (hFid : ∀ t, (F t).id = t.id)
    (P : Task → Task → Prop) (hF : ∀ t ∈ l, P t (F t)) :
    ∀ t' ∈ l.map F, ∀ t ∈ l, t.id = t'.id → P t t' := by
  intro t' ht' t ht hid
  obtain ⟨u, hu, rfl⟩ := List.mem_map.mp ht'
  have htu : t = u := eq_of_mem_id l hnd ht hu (by rw [hid, hFid])
  subst htu
  exact hF t ht

/-- Pairing rows by id over an unchanged list reduces to the reflexive
property. -/
lemma forall_pairs_self (l : List Task) (hnd : (l.map Task.id).Nodup)
    (P : Task → Task → Prop) (hP : ∀ t ∈ l, P t t) :
    ∀ t' ∈ l, ∀ t ∈ l, t.id = t'.id → P t t' := by
  intro t' ht' t ht hid
  have htu : t = t' := eq_of_mem_id l hnd ht ht' hid
  subst htu
  exact hP t ht

/-- Task-row effect of a doer's rating call, independent of whether the
counterparty profile exists: the flag is set, and the row completes only
if the re-read succeeds and sees both flags. -/
lemma submitRating_tasks_doer_eq (db : DB) (env : RateEnv)
    (uid taskId : String) (r : Nat) (ct : Task)
    (hfind : db.tasks.find? (fun t => t.id = taskId) = some ct)
    (hdoer : ct.doer_id = some uid) :
    (handleSubmitRating db env uid taskId r).2.tasks
      = db.tasks.map (fun t =>
          if t.id = ct.id then
            (if env.rereadOk = true ∧ ct.is_requestor_rated = true then
              { t with is_doer_rated := true, status := TaskStatus.completed }
             else { t with is_doer_rated := true })
          else t) := by
  have hctid : ct.id = taskId := by
    have h := List.find?_some hfind
    simpa using h
  have hfind1 : db.tasks.find? (fun t => t.id = ct.id) = some ct := by
    rw [hctid]
    exact hfind
  have hfind2 : (db.tasks.map (fun t : Task =>
      if t.id = ct.id then { t with is_doer_rated := true } else t)).find?
        (fun t => t.id = ct.id)
      = some { ct with is_doer_rated := true } := by
    have := find?_map_id_pres db.tasks
      (fun t : Task => if t.id = ct.id then { t with is_doer_rated := true } else t)
      (fun t => by by_cases h : t.id = ct.id <;> simp [h]) ct.id ct hfind1
    simpa using this
  by_cases hc : db.profiles.any (fun p => p.id = ct.creator_id) = true <;>
    by_cases he : env.rereadOk <;> by_cases hb : ct.is_requestor_rated <;>
    simp [handleSubmitRating, hfind, hdoer, hc, he, hfind2, hb, List.map_map]
  all_goals
    intro t _
    by_cases h : t.id = ct.id <;> simp [h]

/-- Task-row effect of a requestor's (non-doer's) rating call,
independent of whether the counterparty profile exists: the flag is set,
and the row completes only if the re-read succeeds and sees both
flags. -/
lemma submitRating_tasks_req_eq (db : DB) (env : RateEnv)
    (uid taskId : String) (r : Nat) (ct : Task)
    (hfind : db.tasks.find? (fun t => t.id = taskId) = some ct)
    (hnotdoer : ¬ ct.doer_id = some uid) :
    (handleSubmitRating db env uid taskId r).2.tasks
      = db.tasks.map (fun t =>
          if t.id = ct.id then
            (if env.rereadOk = true ∧ ct.is_doer_rated = true then
              { t with is_requestor_rated := true,
                       status := TaskStatus.completed }
             else { t with is_requestor_rated := true })
          else t) := by
  have hctid : ct.id = taskId := by
    have h := List.find?_some hfind
    simpa using h
  have hfind1 : db.tasks.find? (fun t => t.id = ct.id) = some ct := by
    rw [hctid]
    exact hfind
  have hfind2 : (db.tasks.map (fun t : Task =>
      if t.id = ct.id then { t with is_requestor_rated := true } else t)).find?
        (fun t => t.id = ct.id)
      = some { ct with is_requestor_rated := true } := by
    have := find?_map_id_pres db.tasks
      (fun t : Task =>
        if t.id = ct.id then { t with is_requestor_rated := true } else t)
      (fun t => by by_cases h : t.id = ct.id <;> simp [h]) ct.id ct hfind1
    simpa using this
  by_cases hc : db.profiles.any (fun p => p.id = ct.doer_id.getD "") = true <;>
    by_cases he : env.rereadOk <;> by_cases hb : ct.is_doer_rated <;>
    simp [handleSubmitRating, hfind, hnotdoer, hc, he, hfind2, hb,
      List.map_map]
  all_goals
    intro t _
    by_cases h : t.id = ct.id <;> simp [h]

/-- A step preserving status and both rated flags of a row satisfies the
amended pair property. -/
lemma pair_of_same_fields (op : Op) (t t' : Task)
    (hstat : t'.status = t.status)
    (hreq : t'.is_requestor_rated = t.is_requestor_rated)
    (hdoer : t'.is_doer_rated = t.is_doer_rated) :
    completionIffRatedOrCancel op t t' :=
  pair_of_no_complete_no_rate op t t' hstat
    (fun h2 h3 => ⟨hreq ▸ h2, hdoer ▸ h3⟩)

/-- A verification call either leaves the task rows unchanged (lookup
failure, code mismatch, update failure) or sets exactly one verified
flag on the task's rows. -/
lemma verifyCode_tasks_cases (db : DB) (env : VerifyEnv)
    (uid tid code : String) :
    (handleVerifyCode db env uid tid code).2.tasks = db.tasks
    ∨ (handleVerifyCode db env uid tid code).2.tasks
        = db.tasks.map (fun t =>
            if t.id = tid then { t with is_doer_verified := true } else t)
    ∨ (handleVerifyCode db env uid tid code).2.tasks
        = db.tasks.map (fun t =>
            if t.id = tid then { t with is_requestor_verified := true }
            else t) := by
  rcases hfind : db.tasks.find? (fun t => t.id = tid) with _ | task
  · exact Or.inl (by simp [handleVerifyCode, hfind])
  · by_cases hd : task.doer_id = some uid
    · by_cases hm : some code = task.requestor_verification_code
      · by_cases hu : env.updateOk
        · by_cases hf : env.fetchOk
          · exact Or.inr (Or.inl
              (by simp [handleVerifyCode, hfind, hd, hm, hu, hf]))
          · exact Or.inr (Or.inl
              (by simp [handleVerifyCode, hfind, hd, hm, hu, hf]))
        · exact Or.inl (by simp [handleVerifyCode, hfind, hd, hm, hu])
      · exact Or.inl (by simp [handleVerifyCode, hfind, hd, hm])
    · by_cases hm : some code = task.doer_verification_code
      · by_cases hu : env.updateOk
        · by_cases hf : env.fetchOk
          · exact Or.inr (Or.inr
              (by simp [handleVerifyCode, hfind, hd, hm, hu, hf]))
          · exact Or.inr (Or.inr
              (by simp [handleVerifyCode, hfind, hd, hm, hu, hf]))
        · exact Or.inl (by simp [handleVerifyCode, hfind, hd, hm, hu])
      · exact Or.inl (by simp [handleVerifyCode, hfind, hd, hm])

/-- C2 (amended): under every task operation — pairing pre and post rows
by their (unique) id — a row's status flips to completed only when both
rated flags hold afterwards or the operation is cancelTask, and whenever
a step makes both rated flags hold and its completion re-read succeeds
the row's status is completed.  When the re-read fails, the source's
`if (taskData && ...)` guard skips the completion update, so the flags
can be left persisted with status unchanged (spec §7's partial state) —
the failing rating steps are part of the step relation via RateEnv. -/
theorem completion_iff_rated_amended (db : DB) (op : Op)
    (hnd : (db.tasks.map Task.id).Nodup) :
    ∀ t' ∈ (applyOp db op).tasks, ∀ t ∈ db.tasks, t.id = t'.id →
      completionIffRatedOrCancel op t t' := by
  cases op with
  | create c nid ti d l dl tt r =>
    simp only [applyOp, handleCreateTask]
    split
    next h => exact forall_pairs_self db.tasks hnd _ (fun t _ => pair_id _ t)
    next h =>
      intro t' ht' t ht hid
      rcases List.mem_cons.mp ht' with rfl | hmem
      · exact pair_of_fresh _ t _ rfl rfl
      · have htu : t = t' := eq_of_mem_id db.tasks hnd ht hmem hid
        subst htu
        exact pair_id _ t
  | cancel tid =>
    simp only [applyOp, handleCancelTask]
    refine forall_pairs_of_map db.tasks hnd _ ?_ _ ?_
    · intro t
      by_cases h : t.id = tid <;> simp [h]
    · intro t ht
      by_cases h : t.id = tid
      · constructor
        · intro _
          right
          rfl
        · rintro ⟨h1, h2, h3, h4⟩
          simp only [h, if_pos] at h2 h3
          exact absurd ⟨h2, h3⟩ h1
      · simp only [h, if_neg, ite_false]
        exact pair_id _ t
  | edit tid ti d l dl r =>
    simp only [applyOp, handleEditTask]
    refine forall_pairs_of_map db.tasks hnd _ ?_ _ ?_
    · intro t
      by_cases h : t.id = tid <;> simp [h]
    · intro t ht
      by_cases h : t.id = tid
      · exact pair_of_same_fields _ t _ (by simp [h]) (by simp [h]) (by simp [h])
      · simp only [h, if_neg, ite_false]
        exact pair_id _ t
  | approve aid tid pid c1 c2 =>
    simp only [applyOp]
    rw [approve_tasks_eq]
    refine forall_pairs_of_map db.tasks hnd _ ?_ _ ?_
    · intro t
      by_cases h : t.id = tid <;> simp [h]
    · intro t ht
      by_cases h : t.id = tid
      · refine pair_of_no_complete_no_rate _ t _ (by simp [h]) ?_
        intro h2 h3
        simp [h] at h2
      · simp only [h, if_neg, ite_false]
        exact pair_id _ t
  | verify env uid tid code =>
    simp only [applyOp]
    rcases verifyCode_tasks_cases db env uid tid code with hc | hc | hc <;>
      rw [hc]
    · exact forall_pairs_self db.tasks hnd _ (fun t _ => pair_id _ t)
    · refine forall_pairs_of_map db.tasks hnd _ ?_ _ ?_
      · intro t
        by_cases h : t.id = tid <;> simp [h]
      · intro t ht
        by_cases h : t.id = tid
        · exact pair_of_same_fields _ t _ (by simp [h]) (by simp [h])
            (by simp [h])
        · simp only [h, if_neg, ite_false]
          exact pair_id _ t
    · refine forall_pairs_of_map db.tasks hnd _ ?_ _ ?_
      · intro t
        by_cases h : t.id = tid <;> simp [h]
      · intro t ht
        by_cases h : t.id = tid
        · exact pair_of_same_fields _ t _ (by simp [h]) (by simp [h])
            (by simp [h])
        · simp only [h, if_neg, ite_false]
          exact pair_id _ t
  | rate env uid tid r =>
    simp only [applyOp]
    rcases hfind : db.tasks.find? (fun t => t.id = tid) with _ | ct
    · have hpost : (handleSubmitRating db env uid tid r).2 = db := by
        simp [handleSubmitRating, hfind]
      rw [hpost]
      exact forall_pairs_self db.tasks hnd _ (fun t _ => pair_id _ t)
    · have hctmem : ct ∈ db.tasks := List.mem_of_find?_eq_some hfind
      by_cases hd : ct.doer_id = some uid
      · rw [submitRating_tasks_doer_eq db env uid tid r ct hfind hd]
        refine forall_pairs_of_map db.tasks hnd _ ?_ _ ?_
        · intro t
          by_cases h : t.id = ct.id <;>
            by_cases hb : env.rereadOk = true ∧ ct.is_requestor_rated = true <;>
            simp [h, hb]
        · intro t ht
          by_cases h : t.id = ct.id
          · have htu : t = ct := eq_of_mem_id db.tasks hnd ht hctmem h
            subst htu
            by_cases hb : env.rereadOk = true ∧ t.is_requestor_rated = true
            · exact ⟨fun _ => Or.inl ⟨by simp [hb], by simp [hb]⟩,
                fun _ => by simp [hb]⟩
            · constructor
              · rintro ⟨h1, h2⟩
                simp [hb] at h2
                exact absurd h2 h1
              · rintro ⟨h1, h2, h3, h4⟩
                simp [hb] at h2
                exact absurd ⟨h4, h2⟩ hb
          · simp only [h, if_neg, ite_false]
            exact pair_id _ t
      · rw [submitRating_tasks_req_eq db env uid tid r ct hfind hd]
        refine forall_pairs_of_map db.tasks hnd _ ?_ _ ?_
        · intro t
          by_cases h : t.id = ct.id <;>
            by_cases hb : env.rereadOk = true ∧ ct.is_doer_rated = true <;>
            simp [h, hb]
        · intro t ht
          by_cases h : t.id = ct.id
          · have htu : t = ct := eq_of_mem_id db.tasks hnd ht hctmem h
            subst htu
            by_cases hb : env.rereadOk = true ∧ t.is_doer_rated = true
            · exact ⟨fun _ => Or.inl ⟨by simp [hb], by simp [hb]⟩,
                fun _ => by simp [hb]⟩
            · constructor
              · rintro ⟨h1, h2⟩
                simp [hb] at h2
                exact absurd h2 h1
              · rintro ⟨h1, h2, h3, h4⟩
                simp [hb] at h3
                exact absurd ⟨h4, h3⟩ hb
          · simp only [h, if_neg, ite_false]
            exact pair_id _ t

/-- A fresh active unrated task, the pre-state of C2's counterexample. -/
def lifecycleDB : DB := ⟨[{ baseTask with id := "T3" }], [], []⟩

/-- Counterexample to C2 as stated: cancelTask completes the task while
both rated flags are still false, so "status becomes completed iff both
rated flags are true" fails on the cancel step. -/
theorem completion_iff_rated_counterexample :
    ¬ (∀ t' ∈ (applyOp lifecycleDB (Op.cancel "T3")).tasks,
        ∀ t ∈ lifecycleDB.tasks, t.id = t'.id → completionIffRated t t') := by
  decide

/-- Witness for the amended C2 on the same cancel step, at the concrete
pre and post rows of the cancelled task. -/
theorem completion_iff_rated_amended_witness :
    completionIffRatedOrCancel (Op.cancel "T3")
      { baseTask with id := "T3" }
      { baseTask with id := "T3", status := TaskStatus.completed } :=
  completion_iff_rated_amended lifecycleDB (Op.cancel "T3") (by decide)
    { baseTask with id := "T3", status := TaskStatus.completed } (by decide)
    { baseTask with id := "T3" } (by decide) (by decide)

/-- The attachment descriptor (FileAttachment in src/lib/types; persisted
wire format of §6): id, name, MIME type, public URL, byte size. -/
structure FileAttachment where
  id : String
  name : String
  type : String
  url : String
  size : Nat
  deriving DecidableEq

/-- JS truthiness of an optional string column: NULL and '' are falsy. -/
def strTruthy : Option String → Bool
  | none => false
  | some s => s ≠ ""

/-- JS truthiness of an optional numeric column: NULL and 0 are falsy. -/
def natTruthy : Option Nat → Bool
  | none => false
  | some n => n ≠ 0

/-- A row of the `messages` table: the structured JSONB attachment plus
the denormalized attachment_* columns (src/unnamed/part_000 and
part_002). -/
structure MessageRow where
  id : String
  chat_id : String
  sender_id : String
  receiver_id : String
  content : String
  timestamp : Nat
  read : Bool
  attachment : Option FileAttachment
  attachment_name : Option String
  attachment_type : Option String
  attachment_url : Option String
  attachment_size : Option Nat
  deriving DecidableEq

/-- The row inserted by handleSendMessage (Chat.tsx lines 275-333): with
an attachment, the clean object goes into the JSONB column and its
fields are mirrored into the denormalized columns; without one, all five
attachment columns stay NULL. -/
def sendMessageRow (chatId senderId receiverId content : String)
    (att : Option FileAttachment) (newId : String) (ts : Nat) : MessageRow :=
  match att with
  | none =>
    { id := newId, chat_id := chatId, sender_id := senderId,
      receiver_id := receiverId, content := content, timestamp := ts,
      read := false, attachment := none, attachment_name := none,
      attachment_type := none, attachment_url := none,
      attachment_size := none }
  | some a =>
    { id := newId, chat_id := chatId, sender_id := senderId,
      receiver_id := receiverId, content := content, timestamp := ts,
      read := false,
      attachment := some
        { id := a.id, name := a.name, type := a.type, url := a.url,
          size := a.size },
      attachment_name := some a.name, attachment_type := some a.type,
      attachment_url := some a.url, attachment_size := some a.size }

/-- The attachment normalization of fetchMessages (Chat.tsx lines
192-233): when the structured attachment is present its fields win, each
falling back (JS `\x7bx\x7d || y || dflt` truthiness) to the denormalized
column and then a default; when only attachment_url is truthy the object
is rebuilt from the columns with a freshly generated id `file-<now>`;
otherwise there is no attachment.  The JSONB value arrives parsed, so
the string-parse branch of the source coincides with this object branch
and the parse-failure catch coincides with the column branch. -/
def normalizeAttachment (now : Nat) (m : MessageRow) : Option FileAttachment :=
  if m.attachment.isSome ∨ strTruthy m.attachment_url then
    match m.attachment with
    | some parsed =>
      some { id := if parsed.id ≠ "" then parsed.id else s!"file-{now}",
             name := if parsed.name ≠ "" then parsed.name
                     else if strTruthy m.attachment_name then
                       m.attachment_name.getD ""
                     else "file",
             type := if parsed.type ≠ "" then parsed.type
                     else if strTruthy m.attachment_type then
                       m.attachment_type.getD ""
                     else "application/octet-stream",
             url := if parsed.url ≠ "" then parsed.url
                    else if strTruthy m.attachment_url then
                      m.attachment_url.getD ""
                    else "",
             size := if parsed.size ≠ 0 then parsed.size
                     else if natTruthy m.attachment_size then
                       m.attachment_size.getD 0
                     else 0 }
    | none =>
      if strTruthy m.attachment_url then
        some { id := s!"file-{now}",
               name := if strTruthy m.attachment_name then
                   m.attachment_name.getD ""
                 else "file",
               type := if strTruthy m.attachment_type then
                   m.attachment_type.getD ""
                 else "application/octet-stream",
               url := m.attachment_url.getD "",
               size := if natTruthy m.attachment_size then
                   m.attachment_size.getD 0
                 else 0 }
      else none
  else none

/-- A fetch projection in which the structured attachment column is
absent (NULL) and only the denormalized columns carry the data — the
second store encoding C7 speaks about. -/
def dropStructured (m : MessageRow) : MessageRow :=
  { m with attachment := none }

/-- A concrete uploaded descriptor and its sent message row, for C7. -/
def c7att : FileAttachment :=
  { id := "file-100", name := "a.txt", type := "text/plain",
    url := "http://u/a.txt", size := 5 }

/-- The message row carrying `c7att`, as handleSendMessage inserts it. -/
def c7row : MessageRow := sendMessageRow "c1" "u1" "u2" "hi" (some c7att) "m1" 50

/-- Counterexample to C7 as stated: when the store returns only the
denormalized columns, re-fetching regenerates the attachment id as
`file-<now>`, so the re-fetched object does not equal the uploaded
descriptor (its id differs). -/
theorem attachment_roundtrip_counterexample :
    ¬ (normalizeAttachment 200 (dropStructured c7row) = some c7att) := by
  decide

/-- C7 (amended): re-fetching a sent message reproduces the uploaded
descriptor exactly when the structured attachment field is returned
(given its id, name and MIME type are non-empty, which the uploader's
descriptors satisfy apart from files with an unknown MIME type); when
only the denormalized columns are available, name, type, url and size
are reproduced but the id is freshly regenerated as `file-<now>`. -/
theorem attachment_roundtrip_amended
    (chatId senderId receiverId content newId : String) (ts now : Nat)
    (a : FileAttachment)
    (hid : a.id ≠ "") (hname : a.name ≠ "") (htype : a.type ≠ "")
    (hurl : a.url ≠ "") :
    normalizeAttachment now
        (sendMessageRow chatId senderId receiverId content (some a) newId ts)
      = some a
    ∧ normalizeAttachment now
        (dropStructured
          (sendMessageRow chatId senderId receiverId content (some a) newId ts))
      = some { a with id := s!"file-{now}" } := by
  constructor
  · by_cases hs : a.size = 0
    · simp [normalizeAttachment, sendMessageRow, strTruthy, natTruthy,
        hid, hname, htype, hurl, hs]
      rw [← hs]
    · simp [normalizeAttachment, sendMessageRow, strTruthy, natTruthy,
        hid, hname, htype, hurl, hs]
  · by_cases hs : a.size = 0
    · simp [normalizeAttachment, dropStructured, sendMessageRow, strTruthy,
        natTruthy, hname, htype, hurl, hs]
    · simp [normalizeAttachment, dropStructured, sendMessageRow, strTruthy,
        natTruthy, hname, htype, hurl, hs]

/-- Witness for C7 (amended) on the concrete descriptor `c7att`. -/
theorem attachment_roundtrip_amended_witness :
    normalizeAttachment 200 c7row = some c7att
    ∧ normalizeAttachment 200 (dropStructured c7row)
        = some { c7att with id := "file-200" } :=
  (attachment_roundtrip_amended "c1" "u1" "u2" "hi" "m1" 50 200 c7att
    (by decide) (by decide) (by decide) (by decide))

/-- Outcomes of the storage calls inside handleFileChange: whether
listBuckets succeeds, which buckets it reports, whether the upload
succeeds, and what getPublicUrl returns (none or '' model a missing
public URL). -/
structure UploadEnv where
  listBucketsOk : Bool
  buckets : List String
  uploadOk : Bool
  publicUrl : Option String
  deriving DecidableEq

/-- The local file picked in the input element. -/
structure FileInfo where
  name : String
  type : String
  size : Nat
  deriving DecidableEq

/-- What handleFileChange reports: nothing picked (silent return), the
oversize toast, the catch-all upload-failure toast, or success. -/
inductive UploadOutcome where
  | noFile
  | tooLarge
  | uploadError
  | success (a : FileAttachment)
  deriving DecidableEq

/-- The 5MB ceiling of ChatBox handleFileChange. -/
def MAX_FILE_SIZE : Nat := 5 * 1024 * 1024

/-- handleFileChange (ChatBox, src/unnamed/part_001 lines 120-205):
reject oversize files; list buckets (throw on error), require the
chat_attachments bucket, upload (throw on error), require a non-empty
public URL; only then build the attachment and set it as the pending
filePreview.  Every thrown error is caught and reported; filePreview is
written only on full success. -/
def handleFileChange (env : UploadEnv) (file : Option FileInfo) (now : Nat)
    (filePreview : Option FileAttachment) :
    UploadOutcome × Option FileAttachment :=
  match file with
  | none => (UploadOutcome.noFile, filePreview)
  | some f =>
    if f.size > MAX_FILE_SIZE then (UploadOutcome.tooLarge, filePreview)
    else if !env.listBucketsOk then (UploadOutcome.uploadError, filePreview)
    else if "chat_attachments" ∉ env.buckets then
      (UploadOutcome.uploadError, filePreview)
    else if !env.uploadOk then (UploadOutcome.uploadError, filePreview)
    else
      match env.publicUrl with
      | none => (UploadOutcome.uploadError, filePreview)
      | some u =>
        if u = "" then (UploadOutcome.uploadError, filePreview)
        else
          let a : FileAttachment :=
            { id := s!"file-{now}", name := f.name, type := f.type,
              url := u, size := f.size }
          (UploadOutcome.success a, some a)

/-- C8: starting from an empty filePreview, a failure at any upload step
(bucket listing fails, chat_attachments bucket missing, upload rejected,
public URL missing or empty) is reported as the upload-failure toast and
leaves filePreview empty; and in general, any call that does not succeed
leaves the pending message without an attachment — the flow never
partially attaches. -/
theorem upload_failure_no_partial_attach (env : UploadEnv) (f : FileInfo)
    (now : Nat) (hsize : f.size ≤ MAX_FILE_SIZE)
    (hfail : env.listBucketsOk = false
      ∨ "chat_attachments" ∉ env.buckets
      ∨ env.uploadOk = false
      ∨ env.publicUrl = none ∨ env.publicUrl = some "") :
    ((handleFileChange env (some f) now none).1 = UploadOutcome.uploadError
     ∧ (handleFileChange env (some f) now none).2 = none)
    ∧ (∀ (env' : UploadEnv) (file' : Option FileInfo) (nw : Nat),
        (∀ a, (handleFileChange env' file' nw none).1
            ≠ UploadOutcome.success a) →
        (handleFileChange env' file' nw none).2 = none) := by
  have hs : ¬ f.size > MAX_FILE_SIZE := Nat.not_lt.mpr hsize
  constructor
  · by_cases c1 : env.listBucketsOk
    · by_cases c2 : "chat_attachments" ∈ env.buckets
      · by_cases c3 : env.uploadOk
        · rcases hfail with h | h | h | h | h
          · rw [h] at c1
            exact absurd c1 Bool.false_ne_true
          · exact absurd c2 h
          · rw [h] at c3
            exact absurd c3 Bool.false_ne_true
          · exact ⟨by simp [handleFileChange, hs, c1, c2, c3, h],
              by simp [handleFileChange, hs, c1, c2, c3, h]⟩
          · exact ⟨by simp [handleFileChange, hs, c1, c2, c3, h],
              by simp [handleFileChange, hs, c1, c2, c3, h]⟩
        · exact ⟨by simp [handleFileChange, hs, c1, c2, c3],
            by simp [handleFileChange, hs, c1, c2, c3]⟩
      · exact ⟨by simp [handleFileChange, hs, c1, c2],
          by simp [handleFileChange, hs, c1, c2]⟩
    · exact ⟨by simp [handleFileChange, hs, c1],
        by simp [handleFileChange, hs, c1]⟩
  · intro env' file' nw hno
    rcases file' with _ | f'
    · rfl
    · by_cases c0 : f'.size > MAX_FILE_SIZE
      · simp [handleFileChange, c0]
      · by_cases c1 : env'.listBucketsOk
        · by_cases c2 : "chat_attachments" ∈ env'.buckets
          · by_cases c3 : env'.uploadOk
            · rcases hu : env'.publicUrl with _ | u
              · simp [handleFileChange, c0, c1, c2, c3, hu]
              · by_cases c5 : u = ""
                · simp [handleFileChange, c0, c1, c2, c3, hu, c5]
                · exact absurd
                    (by simp [handleFileChange, c0, c1, c2, c3, hu, c5])
                    (hno { id := s!"file-{nw}", name := f'.name,
                           type := f'.type, url := u, size := f'.size })
            · simp [handleFileChange, c0, c1, c2, c3]
          · simp [handleFileChange, c0, c1, c2]
        · simp [handleFileChange, c0, c1]

/-- Witness for C8: the chat_attachments bucket is missing; the call
reports the upload failure and leaves no pending attachment. -/
theorem upload_failure_no_partial_attach_witness :
    ((handleFileChange ⟨true, ["user-content"], true, some "http://x"⟩
        (some ⟨"a.txt", "text/plain", 10⟩) 7 none).1
      = UploadOutcome.uploadError
     ∧ (handleFileChange ⟨true, ["user-content"], true, some "http://x"⟩
        (some ⟨"a.txt", "text/plain", 10⟩) 7 none).2 = none) :=
  (upload_failure_no_partial_attach
    ⟨true, ["user-content"], true, some "http://x"⟩
    ⟨"a.txt", "text/plain", 10⟩ 7 (by decide)
    (Or.inr (Or.inl (by decide)))).1

/-- A client-side message entry (MessageType in src/lib/types, plus the
isOptimistic marker ChatBox adds). -/
structure MessageType where
  id : String
  senderId : String
  senderName : String
  receiverId : String
  content : String
  timestamp : Nat
  read : Bool
  attachment : Option FileAttachment
  isOptimistic : Bool
  deriving DecidableEq

/-- The optimistic entry built in ChatBox handleSendMessage
(src/unnamed/part_001 lines 85-118): temporary id, the sending user as
sender, marked isOptimistic. -/
def optimisticMessage (userId userName receiverId content : String)
    (ts : Nat) (att : Option FileAttachment) : MessageType :=
  { id := s!"temp-{ts}", senderId := userId, senderName := userName,
    receiverId := receiverId, content := content, timestamp := ts,
    read := false, attachment := att, isOptimistic := true }

/-- The row-insert event payload delivered by the realtime channel (the
attachment already normalized, as the handler parses it). -/
structure InsertPayload where
  id : String
  sender_id : String
  receiver_id : String
  content : String
  timestamp : Nat
  attachment : Option FileAttachment
  deriving DecidableEq

/-- The ChatBox realtime INSERT handler (src/unnamed/part_001 lines
270-342): an event whose sender is the local viewer is ignored;
otherwise a durable entry is built (sender name fetched, read=false) and
appended after filtering out optimistic entries whose content and sender
match the incoming message. -/
def realtimeInsertHandler (viewerId senderName : String)
    (payload : InsertPayload) (msgs : List MessageType) : List MessageType :=
  if payload.sender_id = viewerId then msgs
  else
    let newMessage : MessageType :=
      { id := payload.id, senderId := payload.sender_id,
        senderName := senderName, receiverId := payload.receiver_id,
        content := payload.content, timestamp := payload.timestamp,
        read := false, attachment := payload.attachment,
        isOptimistic := false }
    (msgs.filter (fun m =>
      ¬ (m.isOptimistic = true ∧ m.content = newMessage.content
         ∧ m.senderId = newMessage.senderId))) ++ [newMessage]

/-- C10: an insert event authored by the viewer leaves the local list
unchanged; and when every optimistic entry was authored by the viewer —
as `optimisticMessage` guarantees, being the only producer of optimistic
entries — the push path (sender ≠ viewer) never removes an optimistic
entry, so a viewer's own optimistic message is never replaced via the
push path. -/
theorem realtime_own_message_frame (viewerId senderName : String)
    (payload : InsertPayload) (msgs : List MessageType)
    (hopt : ∀ m ∈ msgs, m.isOptimistic = true → m.senderId = viewerId) :
    (payload.sender_id = viewerId →
      realtimeInsertHandler viewerId senderName payload msgs = msgs)
    ∧ (payload.sender_id ≠ viewerId →
      ∀ m ∈ msgs, m.isOptimistic = true →
        m ∈ realtimeInsertHandler viewerId senderName payload msgs)
    ∧ (∀ userId userName receiverId content ts att,
        (optimisticMessage userId userName receiverId content ts att).senderId
            = userId
        ∧ (optimisticMessage userId userName receiverId content ts
            att).isOptimistic = true) := by
  refine ⟨?_, ?_, fun _ _ _ _ _ _ => ⟨rfl, rfl⟩⟩
  · intro h
    simp [realtimeInsertHandler, h]
  · intro h m hm hmo
    have hsend : ¬ m.senderId = payload.sender_id := fun h3 =>
      h (h3.symm.trans (hopt m hm hmo))
    simp only [realtimeInsertHandler, if_neg h]
    refine List.mem_append.mpr (Or.inl ?_)
    rw [List.mem_filter]
    exact ⟨hm, by simpa using Or.inr (Or.inr hsend)⟩

/-- Witness for C10: the viewer u1 holds an optimistic entry; a partner
event keeps it, and an own-insert event changes nothing. -/
theorem realtime_own_message_frame_witness :
    (optimisticMessage "u1" "me" "u2" "hello" 9 none
        ∈ realtimeInsertHandler "u1" "Bob"
            ⟨"m7", "u2", "u1", "yo", 11, none⟩
            [optimisticMessage "u1" "me" "u2" "hello" 9 none])
    ∧ realtimeInsertHandler "u1" "Bob" ⟨"m8", "u1", "u2", "hello", 12, none⟩
          [optimisticMessage "u1" "me" "u2" "hello" 9 none]
        = [optimisticMessage "u1" "me" "u2" "hello" 9 none] :=
  ⟨((realtime_own_message_frame "u1" "Bob" ⟨"m7", "u2", "u1", "yo", 11, none⟩
      [optimisticMessage "u1" "me" "u2" "hello" 9 none]
      (by decide)).2.1 (by decide))
      (optimisticMessage "u1" "me" "u2" "hello" 9 none) (by decide) (by decide),
   (realtime_own_message_frame "u1" "Bob" ⟨"m8", "u1", "u2", "hello", 12, none⟩
      [optimisticMessage "u1" "me" "u2" "hello" 9 none]
      (by decide)).1 (by decide)⟩

end Taskloop
